import Mathlib

/-!
# Shallow embedding of `html2pdf` (src/src/cli.rs, src/src/lib.rs)

`html2pdf` converts a local HTML file to PDF by driving a headless browser.
The repository's own logic is:

* two pure string parsers (`PaperSize::from_str`, `Margin::from_str`) in
  `src/src/cli.rs`,
* an option-mapping (`From<&Options> for PrintToPdfOptions` in `src/src/cli.rs`,
  repeated inline in `run` in `src/src/lib.rs`),
* a linear orchestration (`html_to_pdf` / `print_to_pdf` in `src/src/lib.rs`).

Numeric model: the Rust code stores `f64` values but performs no floating-point
arithmetic on them — every `f64` is parsed from a decimal literal (or is a
literal constant) and then only copied into the request record.  We therefore
embed `f64` values as exact rationals (`F64.num : ℚ`), plus markers for the
`inf`/`nan` literals accepted by Rust's float grammar.  Rounding a decimal
literal to the nearest binary double is injective on the short literals this
program compares and never changes which side of a strict comparison two
distinct table constants fall on, so every equality/inequality proved below
about the rational model holds of the Rust doubles as well.
-/

namespace Html2Pdf

/-- Rust `std::num::ParseFloatError` (kind `Empty` for the empty string,
`Invalid` for any other rejected string). -/
inductive ParseFloatError where
  | empty
  | invalid
deriving DecidableEq, Repr

/-- The error enum of `src/src/lib.rs` (`Error`).  Each constructor carries
what the Rust variant carries; `InvalidPaperSize` and `InvalidMarginDefinition`
carry the offending input string. -/
inductive Error where
  | InvalidPaperSize (size : String)
  | InvalidMarginDefinition (margin : String)
  | InvalidMarginValue (e : ParseFloatError)
  | HeadlessChromeError (msg : String)
  | IoError (msg : String)
deriving DecidableEq, Repr

/-- Embedded `f64` value: an exact rational for numeric literals, plus the
`inf` / `-inf` / `nan` values produced by Rust's float parser for the
corresponding (case-insensitive) literals.  See the header comment for why
this model is faithful for this program. -/
inductive F64 where
  | num (q : ℚ)
  | inf
  | negInf
  | nan
deriving DecidableEq, Repr

/-- The `PaperSize` enum of `src/src/cli.rs` (lines 190–222). -/
inductive PaperSize where
  | A0
  | A1
  | A2
  | A3
  | A4
  | A5
  | A6
  | Letter
  | Legal
  | Tabloid
deriving DecidableEq, Repr

namespace PaperSize

/-- Accessor `PaperSize::paper_width` (src/src/cli.rs lines 227–239), in inches. -/
def paper_width : PaperSize → ℚ
  | A0 => 33.1
  | A1 => 23.4
  | A2 => 16.5
  | A3 => 11.7
  | A4 => 8.27
  | A5 => 5.83
  | A6 => 4.13
  | Letter => 8.5
  | Legal => 8.5
  | Tabloid => 11.0

/-- Accessor `PaperSize::paper_height` (src/src/cli.rs lines 243–255), in inches. -/
def paper_height : PaperSize → ℚ
  | A0 => 46.8
  | A1 => 33.1
  | A2 => 23.4
  | A3 => 16.5
  | A4 => 11.7
  | A5 => 8.27
  | A6 => 5.83
  | Letter => 11.0
  | Legal => 17.0
  | Tabloid => 17.0

/-- The `derive_more::Display` instance on `PaperSize`: with no explicit
format attribute it prints the variant's name. -/
def display : PaperSize → String
  | A0 => "A0"
  | A1 => "A1"
  | A2 => "A2"
  | A3 => "A3"
  | A4 => "A4"
  | A5 => "A5"
  | A6 => "A6"
  | Letter => "Letter"
  | Legal => "Legal"
  | Tabloid => "Tabloid"

end PaperSize

/-- Rust `char::to_ascii_lowercase`: maps `A`–`Z` to `a`–`z`, leaves every
other character unchanged. -/
def asciiLowerChar (c : Char) : Char :=
  if 'A' ≤ c ∧ c ≤ 'Z' then Char.ofNat (c.toNat + 32) else c

/-- Rust `str::to_ascii_lowercase`, character by character. -/
def toAsciiLower (s : String) : String :=
  ⟨s.data.map asciiLowerChar⟩

/-- The impl `FromStr for PaperSize` (src/src/cli.rs lines 261–277):
lowercase the input (ASCII) and match it against the ten size names;
anything else is `InvalidPaperSize` carrying the original input. -/
def paperSizeFromStr (s : String) : Except Error PaperSize :=
  match toAsciiLower s with
  | "a0" => .ok .A0
  | "a1" => .ok .A1
  | "a2" => .ok .A2
  | "a3" => .ok .A3
  | "a4" => .ok .A4
  | "a5" => .ok .A5
  | "a6" => .ok .A6
  | "letter" => .ok .Letter
  | "legal" => .ok .Legal
  | "tabloid" => .ok .Tabloid
  | _ => .error (.InvalidPaperSize s)

/-- Numeric value of a decimal digit character. -/
def digitVal (c : Char) : ℕ := c.toNat - '0'.toNat

/-- Numeric value of a string of decimal digits (most significant first). -/
def digitsVal (l : List Char) : ℕ := l.foldl (fun a c => 10 * a + digitVal c) 0

/-- The exact rational `m × 10^e` (`m` a mantissa, `e` a signed decimal
exponent), built with `mkRat` and integer powers only so that it evaluates by
kernel reduction. -/
def decimalValue (m : ℕ) (e : ℤ) : ℚ :=
  if 0 ≤ e then mkRat ((m : ℤ) * (10 : ℤ) ^ e.toNat) 1
  else mkRat (m : ℤ) ((10 : ℕ) ^ (-e).toNat)

/-- The `Number` part of Rust's `f64` grammar
(`Digit* ('.' Digit*)?` with at least one mantissa digit, then an optional
`('e'|'E') Sign? Digit+` exponent, consuming the whole input), evaluated
exactly in `ℚ`.  Returns `none` when the characters are not a `Number`. -/
def parseNumber (l : List Char) : Option ℚ :=
  let intDs := l.takeWhile Char.isDigit
  let rest1 := l.dropWhile Char.isDigit
  let fracDs := match rest1 with
    | '.' :: t => t.takeWhile Char.isDigit
    | _ => []
  let rest2 := match rest1 with
    | '.' :: t => t.dropWhile Char.isDigit
    | _ => rest1
  if intDs.length + fracDs.length = 0 then none
  else
    let m := digitsVal (intDs ++ fracDs)
    match rest2 with
    | [] => some (decimalValue m (-(fracDs.length : ℤ)))
    | e :: t =>
      if e = 'e' ∨ e = 'E' then
        let esign : ℤ := match t with
          | '-' :: _ => -1
          | _ => 1
        let t2 := match t with
          | '+' :: t2 => t2
          | '-' :: t2 => t2
          | _ => t
        let eDs := t2.takeWhile Char.isDigit
        let rest3 := t2.dropWhile Char.isDigit
        if eDs = [] ∨ rest3 ≠ [] then none
        else some (decimalValue m (esign * (digitsVal eDs : ℤ) - (fracDs.length : ℤ)))
      else none

/-- Rust `<f64 as FromStr>::from_str` (`str::parse::<f64>`): an empty string
is rejected with the `Empty` error kind; otherwise an optional sign is
stripped, and the rest must be a `Number` or (ASCII case-insensitively) one of
the literals `inf`, `infinity`, `nan`; anything else is rejected with the
`Invalid` kind.  Values are modelled exactly (see the header comment). -/
def parseF64 (s : String) : Except ParseFloatError F64 :=
  match s.data with
  | [] => .error .empty
  | l =>
    let neg : Bool := match l with
      | '-' :: _ => true
      | _ => false
    let rest := match l with
      | '+' :: t => t
      | '-' :: t => t
      | _ => l
    match parseNumber rest with
    | some q => .ok (.num (if neg then -q else q))
    | none =>
      let low := rest.map asciiLowerChar
      if low = "inf".data ∨ low = "infinity".data then
        .ok (if neg then .negInf else .inf)
      else if low = "nan".data then .ok .nan
      else .error .invalid

/-- The `Margin` enum of `src/src/cli.rs` (lines 281–291). -/
inductive Margin where
  | All (f : F64)
  | VerticalHorizontal (v h : F64)
  | TopRightBottomLeft (t r b l : F64)
deriving DecidableEq, Repr

namespace Margin

/-- Accessor `Margin::margin_top` (src/src/cli.rs lines 296–302). -/
def margin_top : Margin → F64
  | All f | VerticalHorizontal f _ | TopRightBottomLeft f _ _ _ => f

/-- Accessor `Margin::margin_right` (src/src/cli.rs lines 305–311). -/
def margin_right : Margin → F64
  | All f | VerticalHorizontal _ f | TopRightBottomLeft _ f _ _ => f

/-- Accessor `Margin::margin_bottom` (src/src/cli.rs lines 314–320). -/
def margin_bottom : Margin → F64
  | All f | VerticalHorizontal f _ | TopRightBottomLeft _ _ f _ => f

/-- Accessor `Margin::margin_left` (src/src/cli.rs lines 323–329). -/
def margin_left : Margin → F64
  | All f | VerticalHorizontal _ f | TopRightBottomLeft _ _ _ f => f

end Margin

/-- Rust `str::split(sep)`: the maximal (possibly empty) substrings between
occurrences of the separator character. -/
def splitChar (sep : Char) : List Char → List (List Char)
  | [] => [[]]
  | c :: cs =>
    match splitChar sep cs with
    | [] => [[]]
    | t :: ts => if c = sep then [] :: t :: ts else (c :: t) :: ts

/-- The token list `s.split(' ').filter(|s| !s.is_empty())` from `Margin::from_str`
(src/src/cli.rs line 336): the non-empty space-separated tokens.  Note the
source splits on the space character only, not on general whitespace. -/
def marginTokens (s : String) : List String :=
  ((splitChar ' ' s.data).filter (· ≠ [])).map (fun l => ⟨l⟩)

/-- Body of `impl FromStr for Margin` (src/src/cli.rs lines 335–358) after the
token list has been computed, so that the match on the token count is explicit.
Mirrors the source exactly, including:
* the 1-token arm parses the ENTIRE original string `s` (`s.parse::<f64>()?`),
  not the extracted token;
* the 4-token arm parses `values[2]` for BOTH `bottom` and `left`
  (`values[3]` is never parsed). -/
def marginFromTokens (s : String) : List String → Except Error Margin
  | [_] =>
    match parseF64 s with
    | .ok value => .ok (.All value)
    | .error e => .error (.InvalidMarginValue e)
  | [v, h] =>
    match parseF64 v, parseF64 h with
    | .ok vv, .ok hv => .ok (.VerticalHorizontal vv hv)
    | .error e, _ => .error (.InvalidMarginValue e)
    | _, .error e => .error (.InvalidMarginValue e)
  | [t, r, b, _] =>
    match parseF64 t, parseF64 r, parseF64 b, parseF64 b with
    | .ok top, .ok right, .ok bottom, .ok left =>
        .ok (.TopRightBottomLeft top right bottom left)
    | .error e, _, _, _ => .error (.InvalidMarginValue e)
    | _, .error e, _, _ => .error (.InvalidMarginValue e)
    | _, _, .error e, _ => .error (.InvalidMarginValue e)
    | _, _, _, .error e => .error (.InvalidMarginValue e)
  | _ => .error (.InvalidMarginDefinition s)

/-- The impl `FromStr for Margin` (src/src/cli.rs lines 332–359). -/
def marginFromStr (s : String) : Except Error Margin :=
  marginFromTokens s (marginTokens s)

/-- Function `marginFromStr` re-expressed with the source's literal shape: a match on
`values.len()` and `values[i]` element accesses.  `List.get?` models Rust's
panicking index operator: an out-of-bounds access yields `none`, standing for
a panic, so `some` results mean the code runs without panicking. -/
def marginFromStrIx (s : String) : Option (Except Error Margin) :=
  let values := marginTokens s
  if values.length = 1 then
    some (match parseF64 s with
      | .ok value => .ok (.All value)
      | .error e => .error (.InvalidMarginValue e))
  else if values.length = 2 then
    match values.get? 0, values.get? 1 with
    | some v, some h =>
      some (match parseF64 v, parseF64 h with
        | .ok vv, .ok hv => .ok (.VerticalHorizontal vv hv)
        | .error e, _ => .error (.InvalidMarginValue e)
        | _, .error e => .error (.InvalidMarginValue e))
    | _, _ => none
  else if values.length = 4 then
    match values.get? 0, values.get? 1, values.get? 2, values.get? 2 with
    | some t, some r, some b, some b2 =>
      some (match parseF64 t, parseF64 r, parseF64 b, parseF64 b2 with
        | .ok top, .ok right, .ok bottom, .ok left =>
            .ok (.TopRightBottomLeft top right bottom left)
        | .error e, _, _, _ => .error (.InvalidMarginValue e)
        | _, .error e, _, _ => .error (.InvalidMarginValue e)
        | _, _, .error e, _ => .error (.InvalidMarginValue e)
        | _, _, _, .error e => .error (.InvalidMarginValue e))
    | _, _, _, _ => none
  else
    some (.error (.InvalidMarginDefinition s))

/-- The CLI `Options` struct (src/src/cli.rs lines 14–79).  `PathBuf` is
modelled as a string, `Duration` as a number of milliseconds, `f64` as `F64`.
The Rust getters (`input()` … `disable_sandbox()`) are plain field reads, so
the fields are used directly. -/
structure Options where
  input : String
  output : Option String
  landscape : Bool
  background : Bool
  wait : Option ℕ
  header : Option String
  footer : Option String
  paper : Option PaperSize
  scale : Option F64
  range : Option String
  margin : Option Margin
  disableSandbox : Bool
deriving DecidableEq, Repr

/-- Struct `headless_chrome::types::PrintToPdfOptions`, the external request shape
filled in by this crate (src/src/cli.rs lines 157–176). -/
structure PrintToPdfOptions where
  landscape : Option Bool
  display_header_footer : Option Bool
  print_background : Option Bool
  scale : Option F64
  paper_width : Option ℚ
  paper_height : Option ℚ
  margin_top : Option F64
  margin_bottom : Option F64
  margin_left : Option F64
  margin_right : Option F64
  page_ranges : Option String
  ignore_invalid_page_ranges : Option Bool
  header_template : Option String
  footer_template : Option String
  prefer_css_page_size : Option Bool
  transfer_mode : Option String
  generate_document_outline : Option Bool
  generate_tagged_pdf : Option Bool
deriving DecidableEq, Repr

/-- The impl `From<&Options> for PrintToPdfOptions` (src/src/cli.rs lines
155–178).  The same field mapping is written out inline in `run`
(src/src/lib.rs lines 49–65). -/
def printToPdfOptionsFrom (opt : Options) : PrintToPdfOptions where
  landscape := some opt.landscape
  display_header_footer := some (opt.header.isSome || opt.footer.isSome)
  print_background := some opt.background
  scale := opt.scale
  paper_width := opt.paper.map PaperSize.paper_width
  paper_height := opt.paper.map PaperSize.paper_height
  margin_top := opt.margin.map Margin.margin_top
  margin_bottom := opt.margin.map Margin.margin_bottom
  margin_left := opt.margin.map Margin.margin_left
  margin_right := opt.margin.map Margin.margin_right
  page_ranges := opt.range
  ignore_invalid_page_ranges := none
  header_template := opt.header
  footer_template := opt.footer
  prefer_css_page_size := none
  transfer_mode := none
  generate_document_outline := none
  generate_tagged_pdf := none

/-- Observable steps of the orchestration in `src/src/lib.rs`, in the order
the source performs them. -/
inductive Event where
  | buildLaunchOptions
  | launchBrowser
  | waitForInitialTab
  | navigateTo (url : String)
  | waitUntilNavigated
  | sleep (ms : ℕ)
  | printRequest
  | writeFile (path : String) (bytes : List ℕ)
deriving DecidableEq, Repr

/-- Oracle for the external browser/filesystem calls: which fallible step
succeeds, and the bytes the print call returns on success (`none` = the call
errors). -/
structure ChromeEnv where
  buildOk : Bool
  browserOk : Bool
  tabOk : Bool
  navigateOk : Bool
  waitNavOk : Bool
  printResult : Option (List ℕ)
deriving DecidableEq, Repr

/-- Function `print_to_pdf` (src/src/lib.rs lines 103–134): build launch options,
launch the browser, wait for the initial tab, navigate, wait until navigated,
sleep for `wait` when given, then request the PDF.  Each step appends its
event when the source performs the call; the first failing step ends the run
with its error, exactly as the `?` operators do. -/
def printToPdfRun (env : ChromeEnv) (filePath : String) (wait : Option ℕ) :
    List Event × Except Error (List ℕ) :=
  let tr := [Event.buildLaunchOptions]
  if env.buildOk = false then (tr, .error (.HeadlessChromeError "build")) else
  let tr := tr ++ [Event.launchBrowser]
  if env.browserOk = false then (tr, .error (.HeadlessChromeError "Browser::new")) else
  let tr := tr ++ [Event.waitForInitialTab]
  if env.tabOk = false then (tr, .error (.HeadlessChromeError "wait_for_initial_tab")) else
  let tr := tr ++ [Event.navigateTo filePath]
  if env.navigateOk = false then (tr, .error (.HeadlessChromeError "navigate_to")) else
  let tr := tr ++ [Event.waitUntilNavigated]
  if env.waitNavOk = false then (tr, .error (.HeadlessChromeError "wait_until_navigated")) else
  let tr := tr ++ (match wait with
    | some d => [Event.sleep d]
    | none => [])
  let tr := tr ++ [Event.printRequest]
  match env.printResult with
  | none => (tr, .error (.HeadlessChromeError "print_to_pdf"))
  | some bytes => (tr, .ok bytes)

/-- Function `html_to_pdf` (src/src/lib.rs lines 76–101): convert the input path to a
`file://` URL (the path-to-str conversion may fail with `IoError`, before any
browser call), run `print_to_pdf`, and only on success write the returned
bytes to the output file (`fs::write`, which may fail with `IoError`). -/
def htmlToPdfRun (env : ChromeEnv) (inputUtf8 : Bool) (writeOk : Bool)
    (input output : String) (wait : Option ℕ) : List Event × Except Error Unit :=
  if inputUtf8 = false then ([], .error (.IoError "input file invalid")) else
  let url := "file://" ++ input
  match printToPdfRun env url wait with
  | (tr, .error e) => (tr, .error e)
  | (tr, .ok bytes) =>
    let tr := tr ++ [Event.writeFile output bytes]
    if writeOk = false then (tr, .error (.IoError "Fail to write file"))
    else (tr, .ok ())

/-- The event sequence of a fully successful run: the fixed step order of
`html_to_pdf`/`print_to_pdf`, with the sleep present exactly when a wait
duration was given. -/
def fullTrace (url out : String) (wait : Option ℕ) (bytes : List ℕ) : List Event :=
  [Event.buildLaunchOptions, Event.launchBrowser, Event.waitForInitialTab,
    Event.navigateTo url, Event.waitUntilNavigated]
  ++ (match wait with
    | some d => [Event.sleep d]
    | none => [])
  ++ [Event.printRequest, Event.writeFile out bytes]

/-- Specification-side table for `PaperSize::from_str`: the ten accepted
lowercase names and the variant each one yields (from the spec's description
of the parser, to be compared with `paperSizeFromStr`). -/
def paperSizeNames : List (String × PaperSize) :=
  [("a0", .A0), ("a1", .A1), ("a2", .A2), ("a3", .A3), ("a4", .A4),
   ("a5", .A5), ("a6", .A6), ("letter", .Letter), ("legal", .Legal),
   ("tabloid", .Tabloid)]

/-- Specification-side association-list search: the variant paired with the
first name equal to the key, if any. -/
def findName (k : String) : List (String × PaperSize) → Option PaperSize
  | [] => none
  | (n, p) :: rest => if k = n then some p else findName k rest

/-- A concrete `Options` value used to instantiate universally quantified
statements about the option mapping. -/
def sampleOptions : Options where
  input := "in.html"
  output := some "out.pdf"
  landscape := true
  background := false
  wait := some 150
  header := some "<span class=title></span>"
  footer := none
  paper := some .A4
  scale := some (.num 1)
  range := some "1-5, 8, 11-13"
  margin := some (.VerticalHorizontal (.num 1) (.num 2))
  disableSandbox := false

end Html2Pdf

namespace Html2Pdf

instance {ε α : Type} [DecidableEq ε] [DecidableEq α] : DecidableEq (Except ε α)
  | .error e₁, .error e₂ =>
    if h : e₁ = e₂ then .isTrue (by rw [h]) else .isFalse (by simp [h])
  | .error _, .ok _ => .isFalse (by simp)
  | .ok _, .error _ => .isFalse (by simp)
  | .ok a₁, .ok a₂ =>
    if h : a₁ = a₂ then .isTrue (by rw [h]) else .isFalse (by simp [h])

example : paperSizeFromStr "A4" = .ok .A4 := by decide
example : paperSizeFromStr "tAbLoId" = .ok .Tabloid := by decide
example : paperSizeFromStr "plop" = .error (.InvalidPaperSize "plop") := by decide

-- scratch checks against the Rust test suite (cli.rs tests)
example : marginFromStr "0.4" = .ok (.All (.num (mkRat 2 5))) := by decide
example : (marginFromStr "0.4  0.7").isOk := by decide
example : marginFromStr "0.2   0.3 0.4  0.5" =
    .ok (.TopRightBottomLeft (.num (mkRat 1 5)) (.num (mkRat 3 10))
      (.num (mkRat 2 5)) (.num (mkRat 2 5))) := by decide
example : marginFromStr "0.2    0.3  0.4" =
    .error (.InvalidMarginDefinition "0.2    0.3  0.4") := by decide
example : marginFromStr "plop" = .error (.InvalidMarginValue .invalid) := by decide
example : marginFromStr " 0.4 " = .error (.InvalidMarginValue .invalid) := by decide
example : marginTokens " 0.4 " = ["0.4"] := by decide
example : parseF64 "1e2" = .ok (.num (mkRat 100 1)) := by decide
example : parseF64 "-3.5E-1" = .ok (.num (mkRat (-7) 20)) := by decide
example : parseF64 "iNf" = .ok .inf := by decide
example : parseF64 "" = .error .empty := by decide
example : parseF64 ".5" = .ok (.num (mkRat 1 2)) := by decide
example : parseF64 "5." = .ok (.num (mkRat 5 1)) := by decide
example : parseF64 "." = .error .invalid := by decide

/-- C6: each `PaperSize` variant maps to the fixed (width, height) pair in
inches given by `paper_width`/`paper_height`: A0=(33.1, 46.8),
A1=(23.4, 33.1), A2=(16.5, 23.4), A3=(11.7, 16.5), A4=(8.27, 11.7),
A5=(5.83, 8.27), A6=(4.13, 5.83), Letter=(8.5, 11.0), Legal=(8.5, 17.0),
Tabloid=(11.0, 17.0).  The accessors are pure functions of the variant, so
the values are constant across calls. -/
theorem paper_size_dimension_table :
    PaperSize.paper_width .A0 = 33.1 ∧ PaperSize.paper_height .A0 = 46.8
  ∧ PaperSize.paper_width .A1 = 23.4 ∧ PaperSize.paper_height .A1 = 33.1
  ∧ PaperSize.paper_width .A2 = 16.5 ∧ PaperSize.paper_height .A2 = 23.4
  ∧ PaperSize.paper_width .A3 = 11.7 ∧ PaperSize.paper_height .A3 = 16.5
  ∧ PaperSize.paper_width .A4 = 8.27 ∧ PaperSize.paper_height .A4 = 11.7
  ∧ PaperSize.paper_width .A5 = 5.83 ∧ PaperSize.paper_height .A5 = 8.27
  ∧ PaperSize.paper_width .A6 = 4.13 ∧ PaperSize.paper_height .A6 = 5.83
  ∧ PaperSize.paper_width .Letter = 8.5 ∧ PaperSize.paper_height .Letter = 11.0
  ∧ PaperSize.paper_width .Legal = 8.5 ∧ PaperSize.paper_height .Legal = 17.0
  ∧ PaperSize.paper_width .Tabloid = 11.0 ∧ PaperSize.paper_height .Tabloid = 17.0 :=
  ⟨rfl, rfl, rfl, rfl, rfl, rfl, rfl, rfl, rfl, rfl,
   rfl, rfl, rfl, rfl, rfl, rfl, rfl, rfl, rfl, rfl⟩

/-- C9: the paper-size table is internally consistent — every size is
portrait (`paper_width < paper_height`), and each consecutive A-series pair
satisfies the halving relation `paper_width(Aₙ) = paper_height(Aₙ₊₁)`. -/
theorem paper_size_table_consistent :
    (∀ p : PaperSize, PaperSize.paper_width p < PaperSize.paper_height p)
  ∧ PaperSize.paper_width .A0 = PaperSize.paper_height .A1
  ∧ PaperSize.paper_width .A1 = PaperSize.paper_height .A2
  ∧ PaperSize.paper_width .A2 = PaperSize.paper_height .A3
  ∧ PaperSize.paper_width .A3 = PaperSize.paper_height .A4
  ∧ PaperSize.paper_width .A4 = PaperSize.paper_height .A5
  ∧ PaperSize.paper_width .A5 = PaperSize.paper_height .A6 := by
  refine ⟨fun p => ?_, rfl, rfl, rfl, rfl, rfl, rfl⟩
  cases p <;> norm_num [PaperSize.paper_width, PaperSize.paper_height]

/-- C8: display/parse round-trip — feeding the displayed variant name of any
`PaperSize` back into `PaperSize::from_str` returns that same size, since
parsing is ASCII case-insensitive. -/
theorem paper_size_display_roundtrip (p : PaperSize) :
    paperSizeFromStr (PaperSize.display p) = .ok p := by
  cases p <;> decide

/-- C5: `PaperSize::from_str` succeeds exactly when the ASCII-lowercased
input is one of the ten size names, yielding the corresponding variant
(per the `paperSizeNames` table); every other string yields
`InvalidPaperSize` carrying the rejected input. -/
theorem paper_size_from_str_spec (s : String) :
    paperSizeFromStr s =
      match findName (toAsciiLower s) paperSizeNames with
      | some p => .ok p
      | none => .error (.InvalidPaperSize s) := by
  unfold paperSizeFromStr
  split <;> rename_i h <;> simp_all [paperSizeNames, findName]

/-- C1 (evaluation at the failing input): on the four-token margin string
"1 2 3 4" the parser returns `TopRightBottomLeft 1 2 3 3` — the resolved left
margin is 3, the THIRD token, not the fourth token 4 required by the claim
and by the CLI help text ("… and last for left"), because the source parses
`values[2]` for `left` (src/src/cli.rs line 351). -/
theorem margin_four_sided_left_takes_third_token :
    marginFromStr "1 2 3 4" =
      .ok (.TopRightBottomLeft (.num 1) (.num 2) (.num 3) (.num 3))
    ∧ Margin.margin_left (.TopRightBottomLeft (.num 1) (.num 2) (.num 3) (.num 3))
        = .num 3
    ∧ parseF64 "4" = .ok (.num 4) := by
  refine ⟨by decide, rfl, by decide⟩

/-- C10: in the single-token case `Margin::from_str` hands the ENTIRE
original string `s` to the float parser — the extracted token `t` is not
used.  Hence a single numeric value surrounded by spaces fails with
`InvalidMarginValue` even though its unique token is numeric (see the
witness at " 0.4 "). -/
theorem margin_single_token_parses_whole_string (s t : String)
    (h : marginTokens s = [t]) :
    marginFromStr s =
      match parseF64 s with
      | .ok v => .ok (.All v)
      | .error e => .error (.InvalidMarginValue e) := by
  unfold marginFromStr
  rw [h]
  rfl

theorem margin_single_token_parses_whole_string_witness :
    marginTokens " 0.4 " = ["0.4"]
    ∧ parseF64 "0.4" = .ok (.num (mkRat 2 5))
    ∧ marginFromStr " 0.4 " = .error (.InvalidMarginValue .invalid) := by
  refine ⟨by decide, by decide, ?_⟩
  rw [margin_single_token_parses_whole_string " 0.4 " "0.4" (by decide)]
  decide

/-- C4 (counterexample): "0.4 " has exactly one non-empty whitespace-delimited
token, "0.4", and that token parses as a number, yet `Margin::from_str`
returns `InvalidMarginValue` rather than the uniform margin — because the
single-token arm parses the whole string "0.4 ", whose trailing space the
float grammar rejects.  This refutes C4's characterisation of
`InvalidMarginValue` ("exactly when … some required numeric parse fails")
and of the success case ("otherwise … uniform for 1 token"). -/
theorem margin_from_str_c4_counterexample :
    marginTokens "0.4 " = ["0.4"]
    ∧ parseF64 "0.4" = .ok (.num (mkRat 2 5))
    ∧ marginFromStr "0.4 " = .error (.InvalidMarginValue .invalid) := by
  refine ⟨by decide, by decide, by decide⟩

/-- C4 (amended): for every input string, classify `Margin::from_str` by the
non-empty tokens obtained by splitting on the space character (not general
whitespace): `InvalidMarginDefinition` exactly when the token count is not 1,
2, or 4; with one token the ENTIRE original string must parse as a number
(`InvalidMarginValue` otherwise); with two tokens both tokens must parse;
with four tokens only the FIRST THREE tokens must parse — the fourth is never
parsed, and the left margin duplicates the third value; when the required
parses succeed the corresponding shape is returned. -/
theorem margin_from_str_classification (s : String) :
    ((marginTokens s).length ≠ 1 → (marginTokens s).length ≠ 2 →
      (marginTokens s).length ≠ 4 →
      marginFromStr s = .error (.InvalidMarginDefinition s))
  ∧ ((marginTokens s).length = 1 →
      marginFromStr s =
        match parseF64 s with
        | .ok v => .ok (.All v)
        | .error e => .error (.InvalidMarginValue e))
  ∧ (∀ v h, marginTokens s = [v, h] →
      marginFromStr s =
        match parseF64 v, parseF64 h with
        | .ok vv, .ok hv => .ok (.VerticalHorizontal vv hv)
        | .error e, _ => .error (.InvalidMarginValue e)
        | _, .error e => .error (.InvalidMarginValue e))
  ∧ (∀ t r b l, marginTokens s = [t, r, b, l] →
      marginFromStr s =
        match parseF64 t, parseF64 r, parseF64 b with
        | .ok tv, .ok rv, .ok bv => .ok (.TopRightBottomLeft tv rv bv bv)
        | .error e, _, _ => .error (.InvalidMarginValue e)
        | _, .error e, _ => .error (.InvalidMarginValue e)
        | _, _, .error e => .error (.InvalidMarginValue e)) := by
  refine ⟨?_, ?_, ?_, ?_⟩
  · intro h1 h2 h4
    unfold marginFromStr marginFromTokens
    cases hv : marginTokens s with
    | nil => rfl
    | cons a l =>
      cases l with
      | nil => rw [hv] at h1; simp at h1
      | cons b l =>
        cases l with
        | nil => rw [hv] at h2; simp at h2
        | cons c l =>
          cases l with
          | nil => rfl
          | cons d l =>
            cases l with
            | nil => rw [hv] at h4; simp at h4
            | cons e l => rfl
  · intro h1
    cases hv : marginTokens s with
    | nil => rw [hv] at h1; simp at h1
    | cons a l =>
      cases l with
      | nil => unfold marginFromStr; rw [hv]; rfl
      | cons b l => rw [hv] at h1; simp at h1
  · intro v h hv
    unfold marginFromStr
    rw [hv]
    rfl
  · intro t r b l hv
    unfold marginFromStr
    rw [hv]
    simp only [marginFromTokens]
    cases parseF64 t <;> cases parseF64 r <;> cases parseF64 b <;> rfl

theorem margin_from_str_classification_witness :
    marginTokens "1 2" = ["1", "2"]
    ∧ marginFromStr "1 2" = .ok (.VerticalHorizontal (.num 1) (.num 2)) := by
  refine ⟨by decide, ?_⟩
  rw [(margin_from_str_classification "1 2").2.2.1 "1" "2" (by decide)]
  decide

/-- C2: the print-options aggregate built from the CLI options maps each
field from the corresponding option — `landscape` and `print_background`
copy the flags; `display_header_footer` is `some true` exactly when a header
or footer template was supplied and `some false` otherwise; `scale` and
`page_ranges` are the given option values; `paper_width`/`paper_height` are
`some` exactly when a paper size was given, holding its resolved dimensions;
the four margin fields are `some` exactly when a margin was given, holding
its resolved values; the header and footer templates are copied. -/
theorem print_to_pdf_options_mapping (opt : Options) :
    (printToPdfOptionsFrom opt).landscape = some opt.landscape
  ∧ (printToPdfOptionsFrom opt).print_background = some opt.background
  ∧ ((printToPdfOptionsFrom opt).display_header_footer = some true
      ↔ (opt.header.isSome = true ∨ opt.footer.isSome = true))
  ∧ ((printToPdfOptionsFrom opt).display_header_footer = some false
      ↔ (opt.header = none ∧ opt.footer = none))
  ∧ (printToPdfOptionsFrom opt).scale = opt.scale
  ∧ (printToPdfOptionsFrom opt).page_ranges = opt.range
  ∧ (printToPdfOptionsFrom opt).paper_width.isSome = opt.paper.isSome
  ∧ (printToPdfOptionsFrom opt).paper_height.isSome = opt.paper.isSome
  ∧ (∀ ps, opt.paper = some ps →
      (printToPdfOptionsFrom opt).paper_width = some (PaperSize.paper_width ps)
      ∧ (printToPdfOptionsFrom opt).paper_height = some (PaperSize.paper_height ps))
  ∧ (printToPdfOptionsFrom opt).margin_top.isSome = opt.margin.isSome
  ∧ (printToPdfOptionsFrom opt).margin_bottom.isSome = opt.margin.isSome
  ∧ (printToPdfOptionsFrom opt).margin_left.isSome = opt.margin.isSome
  ∧ (printToPdfOptionsFrom opt).margin_right.isSome = opt.margin.isSome
  ∧ (∀ m, opt.margin = some m →
      (printToPdfOptionsFrom opt).margin_top = some (Margin.margin_top m)
      ∧ (printToPdfOptionsFrom opt).margin_bottom = some (Margin.margin_bottom m)
      ∧ (printToPdfOptionsFrom opt).margin_left = some (Margin.margin_left m)
      ∧ (printToPdfOptionsFrom opt).margin_right = some (Margin.margin_right m))
  ∧ (printToPdfOptionsFrom opt).header_template = opt.header
  ∧ (printToPdfOptionsFrom opt).footer_template = opt.footer := by
  refine ⟨rfl, rfl, ?_, ?_, rfl, rfl, ?_, ?_, ?_, ?_, ?_, ?_, ?_, ?_, rfl, rfl⟩
  · cases hh : opt.header <;> cases hf : opt.footer <;>
      simp [printToPdfOptionsFrom, hh, hf]
  · cases hh : opt.header <;> cases hf : opt.footer <;>
      simp [printToPdfOptionsFrom, hh, hf]
  · cases hp : opt.paper <;> simp [printToPdfOptionsFrom, hp]
  · cases hp : opt.paper <;> simp [printToPdfOptionsFrom, hp]
  · intro ps h
    simp [printToPdfOptionsFrom, h]
  · cases hm : opt.margin <;> simp [printToPdfOptionsFrom, hm]
  · cases hm : opt.margin <;> simp [printToPdfOptionsFrom, hm]
  · cases hm : opt.margin <;> simp [printToPdfOptionsFrom, hm]
  · cases hm : opt.margin <;> simp [printToPdfOptionsFrom, hm]
  · intro m h
    simp [printToPdfOptionsFrom, h]

theorem print_to_pdf_options_mapping_witness :
    sampleOptions.paper = some .A4
    ∧ (printToPdfOptionsFrom sampleOptions).paper_width
        = some (PaperSize.paper_width .A4)
    ∧ sampleOptions.margin = some (.VerticalHorizontal (.num 1) (.num 2))
    ∧ (printToPdfOptionsFrom sampleOptions).margin_left = some (.num 2)
    ∧ (printToPdfOptionsFrom sampleOptions).display_header_footer = some true := by
  have h := print_to_pdf_options_mapping sampleOptions
  refine ⟨rfl, (h.2.2.2.2.2.2.2.2.1 .A4 rfl).1, rfl, ?_, ?_⟩
  · have hm := h.2.2.2.2.2.2.2.2.2.2.2.2.2.1
      (.VerticalHorizontal (.num 1) (.num 2)) rfl
    exact hm.2.2.1
  · exact h.2.2.1.mpr (Or.inl rfl)

/-- C7: both parsers are pure total functions over strings — for every input
string each returns a `Result` (`Except.ok` or `Except.error`), and
`Margin::from_str`, re-expressed with the source's panicking `values[i]`
index accesses (`marginFromStrIx`, where `none` stands for an out-of-bounds
panic), always produces `some` result, equal to the total function
`marginFromStr`; being Lean functions, both depend only on the input
string. -/
theorem parsers_total (s : String) :
    marginFromStrIx s = some (marginFromStr s)
  ∧ ((∃ p, paperSizeFromStr s = .ok p)
      ∨ (∃ e, paperSizeFromStr s = .error e))
  ∧ ((∃ m, marginFromStr s = .ok m)
      ∨ (∃ e, marginFromStr s = .error e)) := by
  refine ⟨?_, ?_, ?_⟩
  · unfold marginFromStrIx marginFromStr
    cases hv : marginTokens s with
    | nil => rfl
    | cons a l =>
      cases l with
      | nil => rfl
      | cons b l =>
        cases l with
        | nil => rfl
        | cons c l =>
          cases l with
          | nil => rfl
          | cons d l =>
            cases l with
            | nil => rfl
            | cons e l => rfl
  · cases h : paperSizeFromStr s with
    | ok p => exact Or.inl ⟨p, rfl⟩
    | error e => exact Or.inr ⟨e, rfl⟩
  · cases h : marginFromStr s with
    | ok m => exact Or.inl ⟨m, rfl⟩
    | error e => exact Or.inr ⟨e, rfl⟩

/-- C3: a run performs its steps in the fixed order launch → navigate →
wait-for-navigation → optional sleep → print request → write output — every
produced trace is a prefix of the full fixed sequence (so the sleep can only
sit between the navigation wait and the print request, and the write only at
the very end); a sleep event carries exactly the given wait duration (so no
sleep happens when no wait was given); the output file is written only with
bytes the print call actually returned (so never before the render
succeeds); and a fully successful run performs exactly the full sequence,
whose sleep is present exactly when a wait was given. -/
theorem html_to_pdf_sequencing (env : ChromeEnv) (inputUtf8 writeOk : Bool)
    (input output : String) (wait : Option ℕ) :
    List.IsPrefix (htmlToPdfRun env inputUtf8 writeOk input output wait).1
      (fullTrace ("file://" ++ input) output wait (env.printResult.getD []))
  ∧ (∀ d, Event.sleep d ∈ (htmlToPdfRun env inputUtf8 writeOk input output wait).1 →
      wait = some d)
  ∧ (∀ p b,
      Event.writeFile p b ∈ (htmlToPdfRun env inputUtf8 writeOk input output wait).1 →
      env.printResult = some b ∧ p = output)
  ∧ ((htmlToPdfRun env inputUtf8 writeOk input output wait).2 = .ok () →
      (htmlToPdfRun env inputUtf8 writeOk input output wait).1
        = fullTrace ("file://" ++ input) output wait (env.printResult.getD [])) := by
  obtain ⟨b1, b2, b3, b4, b5, pr⟩ := env
  cases inputUtf8 <;> cases b1 <;> cases b2 <;> cases b3 <;> cases b4 <;> cases b5 <;>
    cases pr <;> cases writeOk <;> cases wait <;>
      simp [htmlToPdfRun, printToPdfRun, fullTrace, List.cons_prefix_cons,
        List.nil_prefix]

theorem html_to_pdf_sequencing_witness :
    (htmlToPdfRun ⟨true, true, true, true, true, some [37]⟩ true true
        "in.html" "out.pdf" (some 150)).1
      = fullTrace ("file://" ++ "in.html") "out.pdf" (some 150) [37] := by
  have h := (html_to_pdf_sequencing ⟨true, true, true, true, true, some [37]⟩
    true true "in.html" "out.pdf" (some 150)).2.2.2
  exact h rfl

end Html2Pdf
